import Mathlib

/-!
# Layer Lifecycle Manager — verification of the ESCAP energy tool backend

Shallow embedding of `src/backend/main.py` (FastAPI upload handlers, read
path, cleanup endpoints and route table) together with spec-modelled
definitions for the collaborator modules (`services/geoserver_manager.py`,
`services/spatial_cache.py`, `models.py`) that are absent from the source
tree. Each definition carries a comment pointing at the source lines it
embeds.
-/

namespace Escap

/-! ## Layer Name Codec

`main.py` computes external layer names inline at each upload handler:
  * climate  (line 341): `f"{country}_{variable}_{scenario}"`
  * giri     (line 402): `f"{country}_{variable}_{scenario}_giri"`
  * energy   (line 460): `f"{country}_{infrastructure_type}_energy"`
  * boundary (line 513): `f"{country}_boundary"`
No normalization of the form fields happens anywhere on the upload path.
-/

/-- The logical identity of a layer: country, dataset kind and the
kind-specific fields, exactly the tuple the upload handlers interpolate. -/
inductive LayerIdentity
  | climate (country variable_ scenario : String)
  | giri (country variable_ scenario : String)
  | energy (country infrastructureType : String)
  | boundary (country : String)
  deriving DecidableEq, Repr

/-- The external layer name computed at publish time, a literal transcription
of the f-strings in `upload_climate_data`, `upload_giri_data`,
`upload_energy_data` and `upload_boundary_data`. -/
def encode : LayerIdentity → String
  | .climate c v s => c ++ "_" ++ v ++ "_" ++ s
  | .giri c v s => c ++ "_" ++ v ++ "_" ++ s ++ "_giri"
  | .energy c i => c ++ "_" ++ i ++ "_energy"
  | .boundary c => c ++ "_boundary"

/-- Characters legal in an external-service resource identifier:
lowercase ASCII letters, ASCII digits and underscore. -/
def isAllowedChar (ch : Char) : Bool :=
  (('a' ≤ ch && ch ≤ 'z') || ('0' ≤ ch && ch ≤ '9') || ch == '_')

/-- Every character of the string is legal in an external identifier. -/
def allAllowed (s : String) : Bool := s.data.all isAllowedChar

/-- A field that is safe to interpolate into an underscore-separated name:
it contains no underscore. -/
def goodField (s : String) : Bool := s.data.all (· ≠ '_')

/-- Well-formedness of an identity under which the raw f-string composition
is collision-free: every field is underscore-free, and a climate scenario is
not the literal string "energy" (which would collide with an energy layer). -/
def wellFormed : LayerIdentity → Bool
  | .climate c v s => goodField c && goodField v && goodField s && s != "energy"
  | .giri c v s => goodField c && goodField v && goodField s
  | .energy c i => goodField c && goodField i
  | .boundary c => goodField c

/-- Every input field of the identity consists only of legal identifier
characters. -/
def fieldsAllowed : LayerIdentity → Bool
  | .climate c v s => allAllowed c && allAllowed v && allAllowed s
  | .giri c v s => allAllowed c && allAllowed v && allAllowed s
  | .energy c i => allAllowed c && allAllowed i
  | .boundary c => allAllowed c

/-! ## HTTP route table

`main.py` registers its routes with FastAPI decorators in source order;
Starlette dispatches a request to the first registered route whose method and
path fully match. The table below lists the routes in exactly the order the
decorators appear in `main.py` (lines 269, 285, 290, 295, 362, 423, 481, 535,
620, 642, 665, 693). -/

inductive Method
  | GET | POST
  deriving DecidableEq, Repr

/-- One segment of a route pattern: a literal, a single-segment parameter
such as `{country}`, or a trailing `{path:path}` converter. -/
inductive Seg
  | lit (s : String)
  | param
  | rest
  deriving DecidableEq, Repr

/-- The handler a request is dispatched to, with its captured path
parameters. One constructor per endpoint function in `main.py`. -/
inductive Dispatched
  | root
  | testEndpoint
  | healthCheck
  | uploadClimate
  | uploadGiri
  | uploadEnergy
  | uploadBoundary
  | getCountryLayers (country : String)
  | proxyGeoserver (workspace : String) (path : String)
  | cleanupCountryLayers (country : String)
  | cleanupAllLayers
  | listAllLayers
  deriving DecidableEq, Repr

/-- Match a pattern against the request path segments and return the captured
parameter values (a trailing `{path:path}` captures the rest of the path
joined by "/"). -/
def segsMatch : List Seg → List String → Option (List String)
  | [], [] => some []
  | .lit s :: ps, x :: xs => if s = x then segsMatch ps xs else none
  | .param :: ps, x :: xs => (segsMatch ps xs).map (x :: ·)
  | [.rest], xs => some [String.intercalate "/" xs]
  | _, _ => none

structure Route where
  method : Method
  pattern : List Seg
  build : List String → Dispatched

/-- Match one route: method must agree, pattern must fully match. -/
def tryRoute (r : Route) (m : Method) (p : List String) : Option Dispatched :=
  if r.method = m then (segsMatch r.pattern p).map r.build else none

def rRoot : Route := ⟨.GET, [], fun _ => .root⟩
def rTest : Route := ⟨.GET, [.lit "api", .lit "test"], fun _ => .testEndpoint⟩
def rHealth : Route := ⟨.GET, [.lit "api", .lit "health"], fun _ => .healthCheck⟩
def rUploadClimate : Route :=
  ⟨.POST, [.lit "api", .lit "upload", .lit "climate"], fun _ => .uploadClimate⟩
def rUploadGiri : Route :=
  ⟨.POST, [.lit "api", .lit "upload", .lit "giri"], fun _ => .uploadGiri⟩
def rUploadEnergy : Route :=
  ⟨.POST, [.lit "api", .lit "upload", .lit "energy"], fun _ => .uploadEnergy⟩
def rUploadBoundary : Route :=
  ⟨.POST, [.lit "api", .lit "upload", .lit "boundary"], fun _ => .uploadBoundary⟩
def rGetCountryLayers : Route :=
  ⟨.GET, [.lit "api", .lit "layers", .param], fun ps => .getCountryLayers (ps.getD 0 "")⟩
def rProxyGeoserver : Route :=
  ⟨.GET, [.lit "api", .lit "geoserver", .param, .rest],
    fun ps => .proxyGeoserver (ps.getD 0 "") (ps.getD 1 "")⟩
def rCleanupCountry : Route :=
  ⟨.POST, [.lit "api", .lit "cleanup", .lit "layers", .param],
    fun ps => .cleanupCountryLayers (ps.getD 0 "")⟩
def rCleanupAll : Route :=
  ⟨.POST, [.lit "api", .lit "cleanup", .lit "layers", .lit "all"], fun _ => .cleanupAllLayers⟩
def rListAll : Route :=
  ⟨.GET, [.lit "api", .lit "layers", .lit "list"], fun _ => .listAllLayers⟩

/-- The route table in registration order. -/
def routes : List Route :=
  [rRoot, rTest, rHealth, rUploadClimate, rUploadGiri, rUploadEnergy,
    rUploadBoundary, rGetCountryLayers, rProxyGeoserver, rCleanupCountry,
    rCleanupAll, rListAll]

/-- First-match dispatch over the registered routes. -/
def dispatch (m : Method) (p : List String) : Option Dispatched :=
  routes.findSome? (fun r => tryRoute r m p)

/-! ## Persistence rows

`models.py` is not under src/; the row shapes are transcribed from the
constructor calls in `main.py` (ClimateData lines 323-334, GiriData 386-395,
EnergyData 447-453, BoundaryData 500-506). Numeric statistics are carried as
integers and never computed on; the parsed classification JSON is carried as
its source string. -/

structure ClimateRow where
  id : Nat
  country : String
  variable_ : String
  scenario : String
  year_range : Option String
  season : Option String
  file_path : String
  min_value : Int
  max_value : Int
  mean_value : Int
  classification : String
  deriving DecidableEq, Repr

structure GiriRow where
  id : Nat
  country : String
  variable_ : String
  scenario : String
  file_path : String
  min_value : Int
  max_value : Int
  mean_value : Int
  classification : String
  deriving DecidableEq, Repr

structure EnergyRow where
  id : Nat
  country : String
  infrastructure_type : String
  file_path : String
  capacity_attribute : String
  icon_path : Option String
  deriving DecidableEq, Repr

structure BoundaryRow where
  id : Nat
  country : String
  file_path : String
  hover_attribute : String
  feature_count : Nat
  bounds : String
  deriving DecidableEq, Repr

structure Db where
  climate : List ClimateRow
  giri : List GiriRow
  energy : List EnergyRow
  boundary : List BoundaryRow
  deriving DecidableEq, Repr

/-- Modelled from the spec: `db.merge(...); db.commit()` writes one metadata
record to the opaque persistence store (§6); the ORM mechanics live in
`models.py`/`database.py`, absent from src/. Modelled as an upsert keyed by
the dataset identity (§3: LayerIdentity is the deduplication key). -/
def mergeClimate (rows : List ClimateRow) (r : ClimateRow) : List ClimateRow :=
  rows.filter (fun q =>
    !(q.country == r.country && q.variable_ == r.variable_ && q.scenario == r.scenario)) ++ [r]

/-! ## Spatial cache

`services/spatial_cache.py` is not under src/. The cache is modelled from
spec §4.5: entries carry a payload, a store time and a ttl; `get` returns the
payload only while `now - storedAt < ttl`; `put` overwrites unconditionally.
`main.py` uses two key spaces: country-scoped payloads
(`cache_country_layers` / `get_country_layers`, read path lines 540-542 and
612) and per-layer info (`cache_layer_info`, upload paths line 347). -/

structure CacheEntry (α : Type) where
  payload : α
  storedAt : Nat
  ttl : Nat
  deriving DecidableEq, Repr

/-- Modelled from the spec: `get(key)` returns the stored payload only if
`now - storedAt < ttl` (§4.5, lazy expiry). -/
def cacheGet {α : Type} (entries : List (String × CacheEntry α)) (key : String)
    (now : Nat) : Option α :=
  match entries.lookup key with
  | some e => if now - e.storedAt < e.ttl then some e.payload else none
  | none => none

/-- Modelled from the spec: `put(key, payload, ttl)` is an unconditional
overwrite (§4.5). -/
def cachePut {α : Type} (entries : List (String × CacheEntry α)) (key : String)
    (p : α) (now ttl : Nat) : List (String × CacheEntry α) :=
  (key, ⟨p, now, ttl⟩) :: entries.filter (fun e => e.1 != key)

/-- Modelled from the spec: the cache backend's ttl for assembled payloads;
the concrete duration lives in `services/spatial_cache.py`, absent from
src/. Any positive value works for every theorem below. -/
def cacheTtl : Nat := 3600

/-! ## Assembled country payload (shape of the dict built at main.py 551-609) -/

structure ClimateLayerOut where
  id : Nat
  variable_ : String
  scenario : String
  year_range : Option String
  season : Option String
  stat_min : Int
  stat_max : Int
  stat_mean : Int
  classification : String
  layer_name : String
  wms_url : String
  deriving DecidableEq, Repr

structure GiriLayerOut where
  id : Nat
  variable_ : String
  scenario : String
  stat_min : Int
  stat_max : Int
  stat_mean : Int
  classification : String
  layer_name : String
  wms_url : String
  deriving DecidableEq, Repr

structure EnergyLayerOut where
  id : Nat
  infrastructure_type : String
  capacity_attribute : String
  icon_path : Option String
  layer_name : String
  wfs_url : String
  deriving DecidableEq, Repr

structure BoundaryLayerOut where
  id : Nat
  hover_attribute : String
  feature_count : Nat
  bounds : String
  layer_name : String
  wfs_url : String
  deriving DecidableEq, Repr

structure CountryPayload where
  country : String
  climate : List ClimateLayerOut
  giri : List GiriLayerOut
  energy : List EnergyLayerOut
  boundaries : List BoundaryLayerOut
  deriving DecidableEq, Repr

/-- Modelled from the spec: `serviceUrl(WMS, externalName)` is pure URL
construction with no network call (§4.2); the concrete `get_wms_url` lives in
`services/geoserver_manager.py`, absent from src/. -/
def get_wms_url (name : String) : String := "/geoserver/wms?layers=" ++ name

/-- Modelled from the spec: `serviceUrl(WFS, externalName)`, as
`get_wms_url`. -/
def get_wfs_url (name : String) : String := "/geoserver/wfs?typeName=" ++ name

/-- The four per-country metadata queries and payload assembly of
`get_country_layers` (main.py 546-609), including the inline layer-name
f-strings and service URLs. -/
def assembleCountry (db : Db) (country : String) : CountryPayload :=
  { country := country
    climate := (db.climate.filter (fun l => l.country == country)).map (fun l =>
      { id := l.id, variable_ := l.variable_, scenario := l.scenario
        year_range := l.year_range, season := l.season
        stat_min := l.min_value, stat_max := l.max_value, stat_mean := l.mean_value
        classification := l.classification
        layer_name := country ++ "_" ++ l.variable_ ++ "_" ++ l.scenario
        wms_url := get_wms_url (country ++ "_" ++ l.variable_ ++ "_" ++ l.scenario) })
    giri := (db.giri.filter (fun l => l.country == country)).map (fun l =>
      { id := l.id, variable_ := l.variable_, scenario := l.scenario
        stat_min := l.min_value, stat_max := l.max_value, stat_mean := l.mean_value
        classification := l.classification
        layer_name := country ++ "_" ++ l.variable_ ++ "_" ++ l.scenario ++ "_giri"
        wms_url := get_wms_url (country ++ "_" ++ l.variable_ ++ "_" ++ l.scenario ++ "_giri") })
    energy := (db.energy.filter (fun l => l.country == country)).map (fun l =>
      { id := l.id, infrastructure_type := l.infrastructure_type
        capacity_attribute := l.capacity_attribute, icon_path := l.icon_path
        layer_name := country ++ "_" ++ l.infrastructure_type ++ "_energy"
        wfs_url := get_wfs_url (country ++ "_" ++ l.infrastructure_type ++ "_energy") })
    boundaries := (db.boundary.filter (fun l => l.country == country)).map (fun l =>
      { id := l.id, hover_attribute := l.hover_attribute
        feature_count := l.feature_count, bounds := l.bounds
        layer_name := country ++ "_boundary"
        wfs_url := get_wfs_url (country ++ "_boundary") }) }

/-- The processing result handed back by the upload pipeline collaborator
(file_processor, outside this core per spec §6). -/
structure ProcessResult where
  cog_path : String
  stat_min : Int
  stat_max : Int
  stat_mean : Int
  deriving DecidableEq, Repr

/-- The two key spaces the spatial cache serves for `main.py`. -/
structure SpatialCache where
  countryEntries : List (String × CacheEntry CountryPayload)
  layerEntries : List (String × CacheEntry ProcessResult)
  deriving DecidableEq, Repr

/-- Modelled from the spec: `spatial_cache.cache_country_layers(country,
result)` stores the assembled payload under the country key (§4.5 put). -/
def cache_country_layers (c : SpatialCache) (country : String) (p : CountryPayload)
    (now : Nat) : SpatialCache :=
  { c with countryEntries := cachePut c.countryEntries country p now cacheTtl }

/-- Modelled from the spec: `spatial_cache.get_country_layers(country)`
reads the country key (§4.5 get). -/
def cacheGetCountry (c : SpatialCache) (country : String) (now : Nat) :
    Option CountryPayload :=
  cacheGet c.countryEntries country now

/-- Modelled from the spec: `spatial_cache.cache_layer_info(layer_name,
result)` stores the processing result under the layer-name key — a distinct
key space from the country-scoped payloads (§4.5 put). -/
def cache_layer_info (c : SpatialCache) (name : String) (info : ProcessResult)
    (now : Nat) : SpatialCache :=
  { c with layerEntries := cachePut c.layerEntries name info now cacheTtl }

/-! ## Publish Client state -/

/-- A layer registration held by the external service (spec §3). -/
structure Registration where
  externalName : String
  file_path : String
  createdAt : Nat
  deriving DecidableEq, Repr

structure GeoState where
  layers : List Registration
  deriving DecidableEq, Repr

/-- Modelled from the spec: `geoserver_manager.publish_raster(name, ...)`
registers or replaces a raster layer — replace semantics, not append (§4.2);
the HTTP client lives in `services/geoserver_manager.py`, absent from src/. -/
def publish_raster (g : GeoState) (name : String) (path : String) (now : Nat) : GeoState :=
  { layers := g.layers.filter (fun r => r.externalName != name) ++ [⟨name, path, now⟩] }

/-- Process-wide readiness of the external service workspace (spec §3);
the state itself lives in `services/geoserver_manager.py`, absent from src/,
and is driven by the background task of `startup_event` (main.py 243-252). -/
inductive ReadinessState
  | notStarted | initializing | ready | failed
  deriving DecidableEq, Repr

structure SysState where
  db : Db
  cache : SpatialCache
  geo : GeoState
  readiness : ReadinessState
  deriving DecidableEq, Repr

inductive UploadOutcome
  | ok (layer_name : String)
  | httpError (status : Nat)
  deriving DecidableEq, Repr

structure UploadResult where
  state : SysState
  outcome : UploadOutcome
  publishCalled : Bool
  deriving DecidableEq, Repr

/-- The climate upload handler (main.py 295-360). Effects in source order:
file processing, `db.merge` + `db.commit` (lines 336-337), GeoServer publish
(line 340), per-layer cache write (line 347). The booleans `processOk` and
`publishOk` are the outcomes of the two awaited external calls; either
failure is caught by the handler's `except` and surfaced as HTTP 500
(line 360). Nothing in the handler consults the readiness state, and no
country-scoped cache key is touched. -/
def upload_climate_data (st : SysState) (now : Nat)
    (country variable_ scenario : String) (year_range season : Option String)
    (classification : String)
    (processOk : Bool) (processed : ProcessResult) (publishOk : Bool) : UploadResult :=
  if !processOk then
    ⟨st, .httpError 500, false⟩
  else
    let row : ClimateRow :=
      ⟨0, country, variable_, scenario, year_range, season, processed.cog_path,
        processed.stat_min, processed.stat_max, processed.stat_mean, classification⟩
    let db' : Db := { st.db with climate := mergeClimate st.db.climate row }
    let name := encode (.climate country variable_ scenario)
    if !publishOk then
      ⟨⟨db', st.cache, st.geo, st.readiness⟩, .httpError 500, true⟩
    else
      let geo' := publish_raster st.geo name processed.cog_path now
      let cache' := cache_layer_info st.cache name processed now
      ⟨⟨db', cache', geo', st.readiness⟩, .ok name, true⟩

structure GetLayersResult where
  payload : CountryPayload
  cache : SpatialCache
  dbQueried : Bool
  deriving DecidableEq, Repr

/-- The read path `get_country_layers` (main.py 535-614): cache check first
(lines 540-542); on a miss, the four per-country queries, payload assembly
and a cache store (line 612). `dbQueried` records whether the metadata store
was consulted. -/
def get_country_layers (cache : SpatialCache) (db : Db) (country : String)
    (now : Nat) : GetLayersResult :=
  match cacheGetCountry cache country now with
  | some p => ⟨p, cache, false⟩
  | none =>
    let payload := assembleCountry db country
    ⟨payload, cache_country_layers cache country payload now, true⟩

/-! ## Duplicate Resolver and cleanup

`geoserver_manager.cleanup_duplicate_layers` and
`cleanup_all_duplicate_layers` live in `services/geoserver_manager.py`,
absent from src/; they are modelled from spec §4.4 and §4.6. -/

/-- A registration together with its logical identity, as the Duplicate
Resolver sees it (spec §3 / §4.4). -/
structure LayerRegistration where
  externalName : String
  identity : LayerIdentity
  createdAt : Nat
  sourceArtifactPath : String
  deriving DecidableEq, Repr

/-- The recency key of a registration: creation time first, then the
spec-mandated deterministic tie-break on the external name (lexicographically
greatest wins). -/
def keyOf (a : LayerRegistration) : Nat ×ₗ String :=
  toLex (a.createdAt, a.externalName)

/-- Strictly-less-recent, per `keyOf`. -/
def regLt (a b : LayerRegistration) : Prop := keyOf a < keyOf b

instance (a b : LayerRegistration) : Decidable (regLt a b) := by
  unfold regLt
  infer_instance

/-- The most recent registration of a nonempty group: the maximum under
`keyOf`, i.e. the head after sorting by createdAt descending with the name
tie-break (spec §4.4). -/
def pickKept : LayerRegistration → List LayerRegistration → LayerRegistration
  | best, [] => best
  | best, r :: rs => pickKept (if regLt best r then r else best) rs

/-- Modelled from the spec: within one identity group, the most recent
registration is kept and all others are stale (§4.4). -/
def resolveGroup : List LayerRegistration → Option (LayerRegistration × List LayerRegistration)
  | [] => none
  | r :: rs =>
    let kept := pickKept r rs
    some (kept, (r :: rs).erase kept)

def identityCountry : LayerIdentity → String
  | .climate c _ _ => c
  | .giri c _ _ => c
  | .energy c _ => c
  | .boundary c => c

def countryRegs (regs : List LayerRegistration) (c : String) : List LayerRegistration :=
  regs.filter (fun r => identityCountry r.identity == c)

/-- All stale registrations of a country: for every identity group of that
country, everything but the kept element. -/
def staleForCountry (regs : List LayerRegistration) (c : String) : List LayerRegistration :=
  (((countryRegs regs c).map (·.identity)).dedup.map (fun i =>
    match resolveGroup ((countryRegs regs c).filter (fun r => r.identity == i)) with
    | some (_, stale) => stale
    | none => [])).flatten

structure CountryCleanup where
  country : String
  deleted : Nat
  kept : Nat
  failures : List String
  deriving DecidableEq, Repr

/-- Modelled from the spec: `cleanup_duplicate_layers(country)` deletes every
stale registration of the country; a single deletion failure is recorded in
the per-item failure list and the batch proceeds (§4.4). `deleteFails` is the
oracle giving each delete call's outcome. -/
def cleanup_duplicate_layers (regs : List LayerRegistration)
    (deleteFails : String → Bool) (c : String) : CountryCleanup :=
  let stale := staleForCountry regs c
  let failures := (stale.filter (fun r => deleteFails r.externalName)).map (·.externalName)
  { country := c
    deleted := stale.length - failures.length
    kept := ((countryRegs regs c).map (·.identity)).dedup.length
    failures := failures }

/-- The countries appearing among the registrations, the scope of a
cleanup-all run. -/
def countryList (regs : List LayerRegistration) : List String :=
  (regs.map (fun r => identityCountry r.identity)).dedup

structure CleanupAllReport where
  success : Bool
  countries_processed : Nat
  total_deleted : Nat
  total_kept : Nat
  detailed_results : List CountryCleanup
  deriving DecidableEq, Repr

/-- Modelled from the spec: `cleanup_all_duplicate_layers()` runs the
per-country cleanup for every country in scope, aggregates counts, and
reports per-country results; one country's deletion failures never abort the
whole run (§4.4, §4.6, PartialFailure in §7). -/
def cleanup_all_duplicate_layers (regs : List LayerRegistration)
    (deleteFails : String → Bool) : CleanupAllReport :=
  let reports := (countryList regs).map (cleanup_duplicate_layers regs deleteFails)
  { success := true
    countries_processed := (countryList regs).length
    total_deleted := (reports.map (·.deleted)).sum
    total_kept := (reports.map (·.kept)).sum
    detailed_results := reports }

/-- The endpoint `cleanup_all_layers` (main.py 665-691): returns the report
when `result["success"]` holds, raises HTTP 500 otherwise. -/
def cleanup_all_layers_endpoint (regs : List LayerRegistration)
    (deleteFails : String → Bool) : Except Nat CleanupAllReport :=
  let result := cleanup_all_duplicate_layers regs deleteFails
  if result.success then .ok result else .error 500

theorem goodField_mem {s : String} (h : goodField s = true) :
    ∀ x ∈ s.data, x ≠ '_' := by
  intro x hx
  simpa using List.all_eq_true.mp h x hx

/-- Splitting an underscore-separated concatenation is unique when the first
component is underscore-free. -/
theorem usplit {a b a' b' : List Char}
    (ha : ∀ x ∈ a, x ≠ '_') (ha' : ∀ x ∈ a', x ≠ '_')
    (h : a ++ '_' :: b = a' ++ '_' :: b') : a = a' ∧ b = b' := by
  induction a generalizing a' with
  | nil =>
    cases a' with
    | nil => simpa using h
    | cons y ys =>
      simp only [List.nil_append, List.cons_append, List.cons.injEq] at h
      exact absurd h.1.symm (ha' y (List.mem_cons_self y ys))
  | cons x xs ih =>
    cases a' with
    | nil =>
      simp only [List.nil_append, List.cons_append, List.cons.injEq] at h
      exact absurd h.1 (ha x (List.mem_cons_self x xs))
    | cons y ys =>
      simp only [List.cons_append, List.cons.injEq] at h
      obtain ⟨hxy, ht⟩ := h
      obtain ⟨h1, h2⟩ := ih (fun z hz => ha z (List.mem_cons_of_mem _ hz))
        (fun z hz => ha' z (List.mem_cons_of_mem _ hz)) ht
      exact ⟨by rw [hxy, h1], h2⟩

theorem climate_data (c v s : String) :
    (encode (.climate c v s)).data = c.data ++ '_' :: (v.data ++ '_' :: s.data) := by
  simp [encode, String.data_append]

theorem giri_data (c v s : String) :
    (encode (.giri c v s)).data
      = c.data ++ '_' :: (v.data ++ '_' :: (s.data ++ '_' :: "giri".data)) := by
  simp [encode, String.data_append]

theorem energy_data (c i : String) :
    (encode (.energy c i)).data = c.data ++ '_' :: (i.data ++ '_' :: "energy".data) := by
  simp [encode, String.data_append]

theorem boundary_data (c : String) :
    (encode (.boundary c)).data = c.data ++ '_' :: "boundary".data := by
  simp [encode, String.data_append]

/-- Number of underscores in a character list. -/
def usc (l : List Char) : Nat := l.count '_'

theorem usc_goodField {s : String} (h : goodField s = true) : usc s.data = 0 := by
  rw [usc, List.count_eq_zero]
  intro hm
  exact goodField_mem h _ hm rfl

theorem usc_sep (a x : List Char) : usc (a ++ '_' :: x) = usc a + usc x + 1 := by
  simp [usc, List.count_append, List.count_cons]
  omega

theorem usc_climate {c v s : String} (hc : goodField c = true) (hv : goodField v = true)
    (hs : goodField s = true) : usc (encode (.climate c v s)).data = 2 := by
  rw [climate_data, usc_sep, usc_sep, usc_goodField hc, usc_goodField hv, usc_goodField hs]

theorem usc_giri {c v s : String} (hc : goodField c = true) (hv : goodField v = true)
    (hs : goodField s = true) : usc (encode (.giri c v s)).data = 3 := by
  have h4 : usc ("giri" : String).data = 0 := by decide
  rw [giri_data, usc_sep, usc_sep, usc_sep, usc_goodField hc, usc_goodField hv,
    usc_goodField hs, h4]

theorem usc_energy {c i : String} (hc : goodField c = true) (hi : goodField i = true) :
    usc (encode (.energy c i)).data = 2 := by
  have h4 : usc ("energy" : String).data = 0 := by decide
  rw [energy_data, usc_sep, usc_sep, usc_goodField hc, usc_goodField hi, h4]

theorem usc_boundary {c : String} (hc : goodField c = true) :
    usc (encode (.boundary c)).data = 1 := by
  have h4 : usc ("boundary" : String).data = 0 := by decide
  rw [boundary_data, usc_sep, usc_goodField hc, h4]

/-- On well-formed identities, the f-string name composition is injective. -/
theorem encode_injOn {i j : LayerIdentity}
    (hi : wellFormed i = true) (hj : wellFormed j = true)
    (h : encode i = encode j) : i = j := by
  have hu := congrArg (fun t => usc t.data) h
  simp only at hu
  have hd := congrArg String.data h
  cases i with
  | climate c v s =>
    simp only [wellFormed, Bool.and_eq_true] at hi
    obtain ⟨⟨⟨hc, hv⟩, hs⟩, hne⟩ := hi
    cases j with
    | climate c' v' s' =>
      simp only [wellFormed, Bool.and_eq_true] at hj
      obtain ⟨⟨⟨hc', hv'⟩, hs'⟩, hne'⟩ := hj
      rw [climate_data, climate_data] at hd
      obtain ⟨h1, h2⟩ := usplit (goodField_mem hc) (goodField_mem hc') hd
      obtain ⟨h3, h4⟩ := usplit (goodField_mem hv) (goodField_mem hv') h2
      rw [String.ext h1, String.ext h3, String.ext h4]
    | giri c' v' s' =>
      simp only [wellFormed, Bool.and_eq_true] at hj
      obtain ⟨⟨hc', hv'⟩, hs'⟩ := hj
      rw [usc_climate hc hv hs, usc_giri hc' hv' hs'] at hu
      omega
    | energy c' i' =>
      simp only [wellFormed, Bool.and_eq_true] at hj
      obtain ⟨hc', hi'⟩ := hj
      rw [climate_data, energy_data] at hd
      obtain ⟨h1, h2⟩ := usplit (goodField_mem hc) (goodField_mem hc') hd
      obtain ⟨h3, h4⟩ := usplit (goodField_mem hv) (goodField_mem hi') h2
      have : s = "energy" := String.ext h4
      simp [this] at hne
    | boundary c' =>
      simp only [wellFormed] at hj
      rw [usc_climate hc hv hs, usc_boundary hj] at hu
      omega
  | giri c v s =>
    simp only [wellFormed, Bool.and_eq_true] at hi
    obtain ⟨⟨hc, hv⟩, hs⟩ := hi
    cases j with
    | climate c' v' s' =>
      simp only [wellFormed, Bool.and_eq_true] at hj
      obtain ⟨⟨⟨hc', hv'⟩, hs'⟩, hne'⟩ := hj
      rw [usc_giri hc hv hs, usc_climate hc' hv' hs'] at hu
      omega
    | giri c' v' s' =>
      simp only [wellFormed, Bool.and_eq_true] at hj
      obtain ⟨⟨hc', hv'⟩, hs'⟩ := hj
      rw [giri_data, giri_data] at hd
      obtain ⟨h1, h2⟩ := usplit (goodField_mem hc) (goodField_mem hc') hd
      obtain ⟨h3, h4⟩ := usplit (goodField_mem hv) (goodField_mem hv') h2
      obtain ⟨h5, h6⟩ := usplit (goodField_mem hs) (goodField_mem hs') h4
      rw [String.ext h1, String.ext h3, String.ext h5]
    | energy c' i' =>
      simp only [wellFormed, Bool.and_eq_true] at hj
      obtain ⟨hc', hi'⟩ := hj
      rw [usc_giri hc hv hs, usc_energy hc' hi'] at hu
      omega
    | boundary c' =>
      simp only [wellFormed] at hj
      rw [usc_giri hc hv hs, usc_boundary hj] at hu
      omega
  | energy c i =>
    simp only [wellFormed, Bool.and_eq_true] at hi
    obtain ⟨hc, hifc⟩ := hi
    cases j with
    | climate c' v' s' =>
      simp only [wellFormed, Bool.and_eq_true] at hj
      obtain ⟨⟨⟨hc', hv'⟩, hs'⟩, hne'⟩ := hj
      rw [energy_data, climate_data] at hd
      obtain ⟨h1, h2⟩ := usplit (goodField_mem hc) (goodField_mem hc') hd
      obtain ⟨h3, h4⟩ := usplit (goodField_mem hifc) (goodField_mem hv') h2
      have : s' = "energy" := String.ext h4.symm
      simp [this] at hne'
    | giri c' v' s' =>
      simp only [wellFormed, Bool.and_eq_true] at hj
      obtain ⟨⟨hc', hv'⟩, hs'⟩ := hj
      rw [usc_energy hc hifc, usc_giri hc' hv' hs'] at hu
      omega
    | energy c' i' =>
      simp only [wellFormed, Bool.and_eq_true] at hj
      obtain ⟨hc', hi'⟩ := hj
      rw [energy_data, energy_data] at hd
      obtain ⟨h1, h2⟩ := usplit (goodField_mem hc) (goodField_mem hc') hd
      obtain ⟨h3, h4⟩ := usplit (goodField_mem hifc) (goodField_mem hi') h2
      rw [String.ext h1, String.ext h3]
    | boundary c' =>
      simp only [wellFormed] at hj
      rw [usc_energy hc hifc, usc_boundary hj] at hu
      omega
  | boundary c =>
    simp only [wellFormed] at hi
    cases j with
    | climate c' v' s' =>
      simp only [wellFormed, Bool.and_eq_true] at hj
      obtain ⟨⟨⟨hc', hv'⟩, hs'⟩, hne'⟩ := hj
      rw [usc_boundary hi, usc_climate hc' hv' hs'] at hu
      omega
    | giri c' v' s' =>
      simp only [wellFormed, Bool.and_eq_true] at hj
      obtain ⟨⟨hc', hv'⟩, hs'⟩ := hj
      rw [usc_boundary hi, usc_giri hc' hv' hs'] at hu
      omega
    | energy c' i' =>
      simp only [wellFormed, Bool.and_eq_true] at hj
      obtain ⟨hc', hi'⟩ := hj
      rw [usc_boundary hi, usc_energy hc' hi'] at hu
      omega
    | boundary c' =>
      simp only [wellFormed] at hj
      rw [boundary_data, boundary_data] at hd
      obtain ⟨h1, h2⟩ := usplit (goodField_mem hi) (goodField_mem hj) hd
      rw [String.ext h1]

/-! ## Route dispatch lemmas -/

theorem segsMatch_lit {s : String} {ps : List Seg} {p : List String} {cs : List String}
    (h : segsMatch (.lit s :: ps) p = some cs) :
    ∃ xs, p = s :: xs ∧ segsMatch ps xs = some cs := by
  cases p with
  | nil => simp [segsMatch] at h
  | cons x xs =>
    rw [segsMatch] at h
    split at h
    · next heq => exact ⟨xs, by rw [heq], h⟩
    · exact absurd h (by simp)

theorem segsMatch_nilpat {p : List String} {cs : List String}
    (h : segsMatch [] p = some cs) : p = [] := by
  cases p with
  | nil => rfl
  | cons x xs => simp [segsMatch] at h

/-- A successful route match yields the route's own builder applied to some
captured parameters. -/
theorem tryRoute_build {r : Route} {m : Method} {p : List String} {d : Dispatched}
    (h : tryRoute r m p = some d) : ∃ ps, r.build ps = d := by
  unfold tryRoute at h
  split at h
  · cases hs : segsMatch r.pattern p with
    | none => rw [hs] at h; exact absurd h (by simp)
    | some ps =>
      rw [hs] at h
      exact ⟨ps, by simpa using h⟩
  · exact absurd h (by simp)

/-- One step of first-match dispatch: either the head route matched, or it
did not and dispatch continues over the tail. -/
theorem dispatch_step {r : Route} {rs : List Route} {m : Method} {p : List String}
    {d : Dispatched}
    (h : List.findSome? (fun r => tryRoute r m p) (r :: rs) = some d) :
    tryRoute r m p = some d
      ∨ (tryRoute r m p = none
          ∧ List.findSome? (fun r => tryRoute r m p) rs = some d) := by
  rw [List.findSome?_cons] at h
  cases ht : tryRoute r m p with
  | some b =>
    rw [ht] at h
    exact .inl h
  | none =>
    rw [ht] at h
    exact .inr ⟨rfl, h⟩

/-- The literal cleanup-all route matches only the exact path
POST /api/cleanup/layers/all. -/
theorem tryRoute_cleanupAll {m : Method} {p : List String} {d : Dispatched}
    (h : tryRoute rCleanupAll m p = some d) :
    m = .POST ∧ p = ["api", "cleanup", "layers", "all"] := by
  unfold tryRoute rCleanupAll at h
  split at h
  · next hm =>
    cases hs : segsMatch [.lit "api", .lit "cleanup", .lit "layers", .lit "all"] p with
    | none => rw [hs] at h; exact absurd h (by simp)
    | some cs =>
      obtain ⟨xs1, rfl, hs1⟩ := segsMatch_lit hs
      obtain ⟨xs2, rfl, hs2⟩ := segsMatch_lit hs1
      obtain ⟨xs3, rfl, hs3⟩ := segsMatch_lit hs2
      obtain ⟨xs4, rfl, hs4⟩ := segsMatch_lit hs3
      rw [segsMatch_nilpat hs4]
      exact ⟨hm.symm, rfl⟩
  · exact absurd h (by simp)

/-- The literal layers-list route matches only the exact path
GET /api/layers/list. -/
theorem tryRoute_listAll {m : Method} {p : List String} {d : Dispatched}
    (h : tryRoute rListAll m p = some d) :
    m = .GET ∧ p = ["api", "layers", "list"] := by
  unfold tryRoute rListAll at h
  split at h
  · next hm =>
    cases hs : segsMatch [.lit "api", .lit "layers", .lit "list"] p with
    | none => rw [hs] at h; exact absurd h (by simp)
    | some cs =>
      obtain ⟨xs1, rfl, hs1⟩ := segsMatch_lit hs
      obtain ⟨xs2, rfl, hs2⟩ := segsMatch_lit hs1
      obtain ⟨xs3, rfl, hs3⟩ := segsMatch_lit hs2
      rw [segsMatch_nilpat hs3]
      exact ⟨hm.symm, rfl⟩
  · exact absurd h (by simp)

/-- C1, counterexample: the layer-name encoding as implemented is NOT
injective on all identities — the climate identity (laos, temp, rcp45_giri)
and the giri identity (laos, temp, rcp45) are distinct tuples yet encode to
the same external name "laos_temp_rcp45_giri", contradicting in particular
the claim that a climate identity and a giri identity never encode to the
same name. -/
theorem C1_encode_collision :
    LayerIdentity.climate "laos" "temp" "rcp45_giri" ≠ .giri "laos" "temp" "rcp45"
      ∧ encode (.climate "laos" "temp" "rcp45_giri") = encode (.giri "laos" "temp" "rcp45") := by
  exact ⟨by decide, by decide⟩

/-- C1, amended: the encoding is injective on identities whose fields contain
no underscore and whose climate scenario is not the literal "energy": any two
such identities with distinct (country, datasetKind, variable, scenario)
tuples encode to distinct external names. -/
theorem C1_encode_injective {i j : LayerIdentity}
    (hi : wellFormed i = true) (hj : wellFormed j = true) :
    encode i = encode j → i = j :=
  fun h => encode_injOn hi hj h

/-- C1, witness: the amended injectivity theorem applied at a concrete
well-formed identity. -/
theorem C1_encode_injective_witness :
    LayerIdentity.climate "laos" "temp" "rcp45" = .climate "laos" "temp" "rcp45" :=
  C1_encode_injective (by decide) (by decide) rfl

/-- C4: because the parameterized routes are registered before the literal
ones, POST /api/cleanup/layers/all dispatches to cleanup_country_layers with
country = "all" and GET /api/layers/list dispatches to get_country_layers
with country = "list"; no request at all is ever dispatched to
cleanup_all_layers or list_all_layers. -/
theorem C4_route_shadowing :
    dispatch .POST ["api", "cleanup", "layers", "all"]
        = some (.cleanupCountryLayers "all")
      ∧ dispatch .GET ["api", "layers", "list"] = some (.getCountryLayers "list")
      ∧ ∀ m p d, dispatch m p = some d
          → d ≠ .cleanupAllLayers ∧ d ≠ .listAllLayers := by
  refine ⟨by decide, by decide, ?_⟩
  intro m p d h
  unfold dispatch routes at h
  obtain h1 | ⟨e1, h⟩ := dispatch_step h
  · obtain ⟨ps, rfl⟩ := tryRoute_build h1
    exact ⟨by simp [rRoot], by simp [rRoot]⟩
  obtain h2 | ⟨e2, h⟩ := dispatch_step h
  · obtain ⟨ps, rfl⟩ := tryRoute_build h2
    exact ⟨by simp [rTest], by simp [rTest]⟩
  obtain h3 | ⟨e3, h⟩ := dispatch_step h
  · obtain ⟨ps, rfl⟩ := tryRoute_build h3
    exact ⟨by simp [rHealth], by simp [rHealth]⟩
  obtain h4 | ⟨e4, h⟩ := dispatch_step h
  · obtain ⟨ps, rfl⟩ := tryRoute_build h4
    exact ⟨by simp [rUploadClimate], by simp [rUploadClimate]⟩
  obtain h5 | ⟨e5, h⟩ := dispatch_step h
  · obtain ⟨ps, rfl⟩ := tryRoute_build h5
    exact ⟨by simp [rUploadGiri], by simp [rUploadGiri]⟩
  obtain h6 | ⟨e6, h⟩ := dispatch_step h
  · obtain ⟨ps, rfl⟩ := tryRoute_build h6
    exact ⟨by simp [rUploadEnergy], by simp [rUploadEnergy]⟩
  obtain h7 | ⟨e7, h⟩ := dispatch_step h
  · obtain ⟨ps, rfl⟩ := tryRoute_build h7
    exact ⟨by simp [rUploadBoundary], by simp [rUploadBoundary]⟩
  obtain h8 | ⟨e8, h⟩ := dispatch_step h
  · obtain ⟨ps, rfl⟩ := tryRoute_build h8
    exact ⟨by simp [rGetCountryLayers], by simp [rGetCountryLayers]⟩
  obtain h9 | ⟨e9, h⟩ := dispatch_step h
  · obtain ⟨ps, rfl⟩ := tryRoute_build h9
    exact ⟨by simp [rProxyGeoserver], by simp [rProxyGeoserver]⟩
  obtain h10 | ⟨e10, h⟩ := dispatch_step h
  · obtain ⟨ps, rfl⟩ := tryRoute_build h10
    exact ⟨by simp [rCleanupCountry], by simp [rCleanupCountry]⟩
  obtain h11 | ⟨e11, h⟩ := dispatch_step h
  · obtain ⟨hm, hp⟩ := tryRoute_cleanupAll h11
    subst hm
    subst hp
    exact absurd e10 (by decide)
  obtain h12 | ⟨e12, h⟩ := dispatch_step h
  · obtain ⟨hm, hp⟩ := tryRoute_listAll h12
    subst hm
    subst hp
    exact absurd e8 (by decide)
  · exact absurd h (by simp)

/-- C4, witness: the dispatch theorem applied at the concrete shadowed
cleanup path. -/
theorem C4_route_shadowing_witness :
    Dispatched.cleanupCountryLayers "all" ≠ .cleanupAllLayers
      ∧ Dispatched.cleanupCountryLayers "all" ≠ .listAllLayers :=
  C4_route_shadowing.2.2 .POST ["api", "cleanup", "layers", "all"]
    (.cleanupCountryLayers "all") (by decide)

/-! ## Cache and publish lemmas -/

/-- Reading a key right after storing it (within ttl) yields the stored
payload. -/
theorem cacheGet_cachePut_self {α : Type} (entries : List (String × CacheEntry α))
    (key : String) (p : α) (now ttl : Nat) (h : 0 < ttl) :
    cacheGet (cachePut entries key p now ttl) key now = some p := by
  simp [cacheGet, cachePut, List.lookup_cons, Nat.sub_self, h]

/-- Replace semantics: after a publish, exactly one registration bears the
published name, however many were there before. -/
theorem publish_raster_unique (g : GeoState) (n p : String) (now : Nat) :
    ((publish_raster g n p now).layers.filter
      (fun r => r.externalName == n)).length = 1 := by
  simp only [publish_raster, List.filter_append, List.filter_filter]
  have h1 : (g.layers.filter fun r => r.externalName == n && r.externalName != n) = [] := by
    simp [List.filter_eq_nil_iff, bne]
  have h2 : (([⟨n, p, now⟩] : List Registration).filter fun r => r.externalName == n)
      = [⟨n, p, now⟩] := by
    simp
  rw [h1, h2]
  rfl

/-! ## Duplicate Resolver lemmas -/

theorem regLt_irrefl (a : LayerRegistration) : ¬ regLt a a := lt_irrefl _

theorem regLt_trans {a b c : LayerRegistration} (h1 : regLt a b) (h2 : regLt b c) :
    regLt a c := lt_trans h1 h2

theorem regLt_cross {a b c : LayerRegistration} (h1 : regLt a b) (h2 : ¬ regLt c b) :
    regLt a c := lt_of_lt_of_le h1 (le_of_not_lt h2)

theorem pickKept_mem (r : LayerRegistration) (rs : List LayerRegistration) :
    pickKept r rs ∈ r :: rs := by
  induction rs generalizing r with
  | nil =>
    rw [pickKept]
    exact List.mem_cons_self _ _
  | cons s rs ih =>
    rw [pickKept]
    rcases List.mem_cons.mp (ih (if regLt r s then s else r)) with h2 | h2
    · rw [h2]
      split
      · exact List.mem_cons_of_mem _ (List.mem_cons_self _ _)
      · exact List.mem_cons_self _ _
    · exact List.mem_cons_of_mem _ (List.mem_cons_of_mem _ h2)

/-- `pickKept` is maximal for the recency order over its group. -/
theorem pickKept_not_lt (r : LayerRegistration) (rs : List LayerRegistration) :
    ∀ x ∈ r :: rs, ¬ regLt (pickKept r rs) x := by
  induction rs generalizing r with
  | nil =>
    intro x hx
    rcases List.mem_cons.mp hx with h | h
    · rw [pickKept, h]
      exact regLt_irrefl r
    · exact absurd h (List.not_mem_nil x)
  | cons s rs ih =>
    intro x hx
    rw [pickKept]
    by_cases hrs : regLt r s
    · rw [if_pos hrs]
      rcases List.mem_cons.mp hx with h | h
      · rw [h]
        intro hlt
        exact ih s s (List.mem_cons_self _ _) (regLt_trans hlt hrs)
      · rcases List.mem_cons.mp h with h2 | h2
        · rw [h2]
          exact ih s s (List.mem_cons_self _ _)
        · exact ih s x (List.mem_cons_of_mem _ h2)
    · rw [if_neg hrs]
      rcases List.mem_cons.mp hx with h | h
      · rw [h]
        exact ih r r (List.mem_cons_self _ _)
      · rcases List.mem_cons.mp h with h2 | h2
        · rw [h2]
          intro hlt
          exact ih r r (List.mem_cons_self _ _) (regLt_cross hlt hrs)
        · exact ih r x (List.mem_cons_of_mem _ h2)

/-- With pairwise-distinct creation times, the recency maximum of a group is
unique. -/
theorem max_unique {l : List LayerRegistration}
    (hdist : l.Pairwise (fun a b => a.createdAt ≠ b.createdAt))
    {x y : LayerRegistration} (hx : x ∈ l) (hy : y ∈ l)
    (hmx : ∀ z ∈ l, ¬ regLt x z) (hmy : ∀ z ∈ l, ¬ regLt y z) : x = y := by
  by_contra hne
  have hc : x.createdAt ≠ y.createdAt :=
    List.Pairwise.forall (fun _ _ h => h.symm) hdist hx hy hne
  have h1 : keyOf y ≤ keyOf x := le_of_not_lt (hmx y hy)
  have h2 : keyOf x ≤ keyOf y := le_of_not_lt (hmy x hx)
  have h3 := toLex.injective (le_antisymm h2 h1 : keyOf x = keyOf y)
  simp only [Prod.mk.injEq] at h3
  exact hc h3.1

/-- C10, counterexample: no normalization happens on the upload path — the
climate upload for country "Laos" computes the external name
"Laos_temp_rcp45", which contains the uppercase character 'L' and hence is
not made of lowercase alphanumerics and underscore only, contradicting the
claim that input fields are lowercased/normalized before composition. -/
theorem C10_no_normalization :
    encode (.climate "Laos" "temp" "rcp45") = "Laos_temp_rcp45"
      ∧ allAllowed "Laos_temp_rcp45" = false := by
  exact ⟨by decide, by decide⟩

/-- C10, amended: the external name is the raw underscore-join of the input
fields plus the kind suffix; it consists only of lowercase alphanumerics and
underscore precisely when the inputs already do — if every character of every
input field is a legal identifier character, so is every character of the
computed name. -/
theorem C10_encode_allowed (i : LayerIdentity) (h : fieldsAllowed i = true) :
    allAllowed (encode i) = true := by
  cases i with
  | climate c v s =>
    simp only [fieldsAllowed, Bool.and_eq_true] at h
    obtain ⟨⟨h1, h2⟩, h3⟩ := h
    simp only [allAllowed, encode, String.data_append, List.all_append] at *
    simp +decide [h1, h2, h3]
  | giri c v s =>
    simp only [fieldsAllowed, Bool.and_eq_true] at h
    obtain ⟨⟨h1, h2⟩, h3⟩ := h
    simp only [allAllowed, encode, String.data_append, List.all_append] at *
    simp +decide [h1, h2, h3]
  | energy c i =>
    simp only [fieldsAllowed, Bool.and_eq_true] at h
    obtain ⟨h1, h2⟩ := h
    simp only [allAllowed, encode, String.data_append, List.all_append] at *
    simp +decide [h1, h2]
  | boundary c =>
    simp only [fieldsAllowed] at h
    simp only [allAllowed, encode, String.data_append, List.all_append] at *
    simp +decide [h]

/-- C10, witness: the amended theorem applied at a concrete identity with
well-formed fields. -/
theorem C10_encode_allowed_witness :
    allAllowed (encode (.climate "laos" "temp" "rcp45")) = true :=
  C10_encode_allowed (.climate "laos" "temp" "rcp45") (by decide)

/-- C8, counterexample: the metadata record is committed BEFORE the publish
call (main.py 336-337 vs 340), so when the publish fails the handler returns
HTTP 500 yet the database change persists — contradicting the claim that no
record is committed when the publish fails. -/
theorem C8_commit_despite_publish_failure :
    (upload_climate_data ⟨⟨[], [], [], []⟩, ⟨[], []⟩, ⟨[]⟩, .ready⟩ 5
      "laos" "temp" "rcp45" none none "c" true ⟨"/a.tif", 0, 1, 0⟩ false).outcome
        = .httpError 500
    ∧ (upload_climate_data ⟨⟨[], [], [], []⟩, ⟨[], []⟩, ⟨[]⟩, .ready⟩ 5
      "laos" "temp" "rcp45" none none "c" true ⟨"/a.tif", 0, 1, 0⟩ false).state.db
        ≠ ⟨[], [], [], []⟩ := by
  exact ⟨rfl, by decide⟩

/-- C8, amended: the handler upserts the metadata record once processing
succeeds, and commits it before the publish call, so the stored rows are the
same whether the publish succeeds or fails; when processing fails nothing is
written; and a failed publish still surfaces as an error to the caller with
the record already committed. -/
theorem C8_commit_order (st : SysState) (now : Nat)
    (country variable_ scenario : String) (year_range season : Option String)
    (classification : String) (processed : ProcessResult) (publishOk : Bool) :
    (upload_climate_data st now country variable_ scenario year_range season
        classification true processed publishOk).state.db.climate
      = mergeClimate st.db.climate
          ⟨0, country, variable_, scenario, year_range, season, processed.cog_path,
            processed.stat_min, processed.stat_max, processed.stat_mean, classification⟩
    ∧ (upload_climate_data st now country variable_ scenario year_range season
        classification false processed publishOk).state.db = st.db
    ∧ (upload_climate_data st now country variable_ scenario year_range season
        classification true processed false).outcome = .httpError 500 := by
  refine ⟨?_, rfl, rfl⟩
  cases publishOk <;> rfl

/-- C5, counterexample: nothing on the upload path consults the readiness
state — with readiness = Initializing (≠ Ready) the climate upload still
invokes the Publish Client and even completes successfully, contradicting
the claim that the operation fails fast with ServiceNotReady and does not
invoke a publish operation. -/
theorem C5_no_readiness_gate :
    ReadinessState.initializing ≠ .ready
    ∧ (upload_climate_data ⟨⟨[], [], [], []⟩, ⟨[], []⟩, ⟨[]⟩, .initializing⟩ 5
        "laos" "temp" "rcp45" none none "c" true ⟨"/a.tif", 0, 1, 0⟩ true).publishCalled
          = true
    ∧ (upload_climate_data ⟨⟨[], [], [], []⟩, ⟨[], []⟩, ⟨[]⟩, .initializing⟩ 5
        "laos" "temp" "rcp45" none none "c" true ⟨"/a.tif", 0, 1, 0⟩ true).outcome
          = .ok "laos_temp_rcp45" := by
  exact ⟨by decide, rfl, by decide⟩

/-- C5, amended: the upload handler is not gated on readiness: its outcome is
the same under every ReadinessState, and it invokes the Publish Client
exactly when file processing succeeds, whatever the readiness state is; a
publish failure surfaces as a generic HTTP 500 after the attempt, not as a
pre-publish ServiceNotReady. -/
theorem C5_upload_ignores_readiness (st : SysState) (r : ReadinessState) (now : Nat)
    (country variable_ scenario : String) (year_range season : Option String)
    (classification : String) (processOk : Bool) (processed : ProcessResult)
    (publishOk : Bool) :
    (upload_climate_data { st with readiness := r } now country variable_ scenario
        year_range season classification processOk processed publishOk).publishCalled
      = processOk
    ∧ (upload_climate_data { st with readiness := r } now country variable_ scenario
        year_range season classification processOk processed publishOk).outcome
      = (upload_climate_data st now country variable_ scenario
          year_range season classification processOk processed publishOk).outcome := by
  cases processOk <;> cases publishOk <;> exact ⟨rfl, rfl⟩

/-- C2, counterexample: a successful publish does not invalidate the
country-scoped cache entry — it only stores per-layer info under the layer
key (main.py 347) — so a getCountryLayers call right after the publish is
served the pre-publish cached payload (here: a payload listing no climate
layers although the database now has one). -/
theorem C2_stale_read_after_publish :
    (upload_climate_data
        ⟨⟨[], [], [], []⟩,
          ⟨[("laos", ⟨⟨"laos", [], [], [], []⟩, 0, 3600⟩)], []⟩, ⟨[]⟩, .ready⟩ 10
        "laos" "temp" "rcp45" none none "c" true ⟨"/a.tif", 0, 1, 0⟩ true).outcome
      = .ok "laos_temp_rcp45"
    ∧ (get_country_layers
        (upload_climate_data
          ⟨⟨[], [], [], []⟩,
            ⟨[("laos", ⟨⟨"laos", [], [], [], []⟩, 0, 3600⟩)], []⟩, ⟨[]⟩, .ready⟩ 10
          "laos" "temp" "rcp45" none none "c" true ⟨"/a.tif", 0, 1, 0⟩ true).state.cache
        (upload_climate_data
          ⟨⟨[], [], [], []⟩,
            ⟨[("laos", ⟨⟨"laos", [], [], [], []⟩, 0, 3600⟩)], []⟩, ⟨[]⟩, .ready⟩ 10
          "laos" "temp" "rcp45" none none "c" true ⟨"/a.tif", 0, 1, 0⟩ true).state.db
        "laos" 11).payload
      = ⟨"laos", [], [], [], []⟩
    ∧ (upload_climate_data
        ⟨⟨[], [], [], []⟩,
          ⟨[("laos", ⟨⟨"laos", [], [], [], []⟩, 0, 3600⟩)], []⟩, ⟨[]⟩, .ready⟩ 10
        "laos" "temp" "rcp45" none none "c" true ⟨"/a.tif", 0, 1, 0⟩ true).state.db.climate
      ≠ [] := by
  exact ⟨rfl, by decide, by decide⟩

/-- C2, amended: no upload outcome touches the country-scoped cache entries
(only the per-layer key space is written), so whenever the cache held a
payload for the country before the publish and its ttl has not lapsed, a
getCountryLayers call right after the publish is still served exactly that
pre-publish payload. -/
theorem C2_no_country_invalidation (st : SysState) (now now' : Nat)
    (country variable_ scenario : String) (year_range season : Option String)
    (classification : String) (processOk : Bool) (processed : ProcessResult)
    (publishOk : Bool) :
    (upload_climate_data st now country variable_ scenario year_range season
        classification processOk processed publishOk).state.cache.countryEntries
      = st.cache.countryEntries
    ∧ ∀ P, cacheGetCountry st.cache country now' = some P →
        (get_country_layers
          (upload_climate_data st now country variable_ scenario year_range season
            classification processOk processed publishOk).state.cache
          (upload_climate_data st now country variable_ scenario year_range season
            classification processOk processed publishOk).state.db
          country now').payload = P := by
  have h1 : (upload_climate_data st now country variable_ scenario year_range season
      classification processOk processed publishOk).state.cache.countryEntries
      = st.cache.countryEntries := by
    cases processOk <;> cases publishOk <;> rfl
  refine ⟨h1, ?_⟩
  intro P hget
  have h2 : cacheGetCountry (upload_climate_data st now country variable_ scenario
      year_range season classification processOk processed publishOk).state.cache
      country now' = some P := by
    rw [cacheGetCountry, h1]
    exact hget
  simp [get_country_layers, h2]

/-- C2, witness: the amended theorem applied at the concrete scenario of the
counterexample — the cached pre-publish payload is what the post-publish
read returns. -/
theorem C2_no_country_invalidation_witness :
    (get_country_layers
      (upload_climate_data
        ⟨⟨[], [], [], []⟩,
          ⟨[("laos", ⟨⟨"laos", [], [], [], []⟩, 0, 3600⟩)], []⟩, ⟨[]⟩, .ready⟩ 10
        "laos" "temp" "rcp45" none none "c" true ⟨"/a.tif", 0, 1, 0⟩ true).state.cache
      (upload_climate_data
        ⟨⟨[], [], [], []⟩,
          ⟨[("laos", ⟨⟨"laos", [], [], [], []⟩, 0, 3600⟩)], []⟩, ⟨[]⟩, .ready⟩ 10
        "laos" "temp" "rcp45" none none "c" true ⟨"/a.tif", 0, 1, 0⟩ true).state.db
      "laos" 11).payload = ⟨"laos", [], [], [], []⟩ :=
  (C2_no_country_invalidation
    ⟨⟨[], [], [], []⟩, ⟨[("laos", ⟨⟨"laos", [], [], [], []⟩, 0, 3600⟩)], []⟩, ⟨[]⟩, .ready⟩
    10 11 "laos" "temp" "rcp45" none none "c" true ⟨"/a.tif", 0, 1, 0⟩ true).2
    ⟨"laos", [], [], [], []⟩ (by decide)

/-- C6: publishing twice with the identical identity and artifact is
idempotent — the second call computes the same external name and returns the
same outcome, and the external service ends up with exactly one active
registration under that name (replace semantics, not append). -/
theorem C6_publish_idempotent (st : SysState) (now1 now2 : Nat)
    (country variable_ scenario : String) (year_range season : Option String)
    (classification : String) (processed : ProcessResult) :
    (upload_climate_data
        (upload_climate_data st now1 country variable_ scenario year_range season
          classification true processed true).state
        now2 country variable_ scenario year_range season
        classification true processed true).outcome
      = (upload_climate_data st now1 country variable_ scenario year_range season
          classification true processed true).outcome
    ∧ ((upload_climate_data
        (upload_climate_data st now1 country variable_ scenario year_range season
          classification true processed true).state
        now2 country variable_ scenario year_range season
        classification true processed true).state.geo.layers.filter
          (fun r => r.externalName == encode (.climate country variable_ scenario))).length
      = 1 := by
  constructor
  · rfl
  · exact publish_raster_unique _ _ _ _

/-- C9: the read path is a cache-first read-through — a cached payload is
returned as-is without consulting the metadata store (the result does not
even depend on the database), and on a miss the payload is assembled from
the four per-country queries, stored in the cache (where an immediate
re-read finds it), and returned. -/
theorem C9_cache_first_read (cache : SpatialCache) (db : Db) (country : String)
    (now : Nat) :
    (∀ P, cacheGetCountry cache country now = some P →
      get_country_layers cache db country now = ⟨P, cache, false⟩
      ∧ ∀ db', (get_country_layers cache db' country now).payload = P)
    ∧ (cacheGetCountry cache country now = none →
      (get_country_layers cache db country now).payload = assembleCountry db country
      ∧ (get_country_layers cache db country now).dbQueried = true
      ∧ cacheGetCountry (get_country_layers cache db country now).cache country now
        = some (assembleCountry db country)) := by
  constructor
  · intro P h
    constructor
    · simp [get_country_layers, h]
    · intro db'
      simp [get_country_layers, h]
  · intro h
    refine ⟨by simp [get_country_layers, h], by simp [get_country_layers, h], ?_⟩
    simp only [get_country_layers, h]
    exact cacheGet_cachePut_self _ _ _ _ _ (by decide)

/-- C9, witness: the hit branch applied at a concrete cache state. -/
theorem C9_cache_first_read_witness :
    get_country_layers ⟨[("laos", ⟨⟨"laos", [], [], [], []⟩, 0, 3600⟩)], []⟩
        ⟨[], [], [], []⟩ "laos" 1
      = ⟨⟨"laos", [], [], [], []⟩,
          ⟨[("laos", ⟨⟨"laos", [], [], [], []⟩, 0, 3600⟩)], []⟩, false⟩ :=
  ((C9_cache_first_read ⟨[("laos", ⟨⟨"laos", [], [], [], []⟩, 0, 3600⟩)], []⟩
      ⟨[], [], [], []⟩ "laos" 1).1 ⟨"laos", [], [], [], []⟩ (by decide)).1

/-- C7: given N > 1 registrations sharing one identity with pairwise-distinct
creation times, the Duplicate Resolver keeps exactly one — the most recent —
and marks the other N−1 stale; re-running it on any permutation of the input
keeps the very same registration and yields the same stale set. -/
theorem C7_duplicate_resolver {l l' : List LayerRegistration}
    (hlen : 1 < l.length)
    (hid : ∀ x ∈ l, ∀ y ∈ l, x.identity = y.identity)
    (hdist : l.Pairwise (fun a b => a.createdAt ≠ b.createdAt))
    (hperm : l.Perm l') :
    ∀ kept stale, resolveGroup l = some (kept, stale) →
      stale.length = l.length - 1
      ∧ kept ∈ l
      ∧ (∀ x ∈ l, x ≠ kept → x.createdAt < kept.createdAt)
      ∧ ∀ kept' stale', resolveGroup l' = some (kept', stale') →
          kept' = kept ∧ stale.Perm stale' := by
  cases l with
  | nil => simp at hlen
  | cons r rs =>
    intro kept stale heq
    simp only [resolveGroup, Option.some.injEq, Prod.mk.injEq] at heq
    obtain ⟨hk, hs⟩ := heq
    subst hk
    subst hs
    refine ⟨List.length_erase_of_mem (pickKept_mem r rs), pickKept_mem r rs, ?_, ?_⟩
    · intro x hx hne
      have h1 : ¬ regLt (pickKept r rs) x := pickKept_not_lt r rs x hx
      have hc : x.createdAt ≠ (pickKept r rs).createdAt :=
        List.Pairwise.forall (fun _ _ h => h.symm) hdist hx (pickKept_mem r rs) hne
      have h2 : keyOf x ≤ keyOf (pickKept r rs) := le_of_not_lt h1
      simp only [keyOf] at h2
      rcases lt_or_eq_of_le h2 with h3 | h3
      · rcases (Prod.Lex.lt_iff _ _).mp h3 with h4 | ⟨h4, h5⟩
        · exact h4
        · exact absurd h4 hc
      · have h4 := toLex.injective h3
        simp only [Prod.mk.injEq] at h4
        exact absurd h4.1 hc
    · cases l' with
      | nil =>
        have hL := hperm.length_eq
        simp at hL
      | cons r' rs' =>
        intro kept' stale' heq'
        simp only [resolveGroup, Option.some.injEq, Prod.mk.injEq] at heq'
        obtain ⟨hk', hs'⟩ := heq'
        subst hk'
        subst hs'
        have hk2 : pickKept r' rs' = pickKept r rs :=
          max_unique hdist
            (hperm.mem_iff.mpr (pickKept_mem r' rs'))
            (pickKept_mem r rs)
            (fun z hz => pickKept_not_lt r' rs' z (hperm.mem_iff.mp hz))
            (pickKept_not_lt r rs)
        refine ⟨hk2, ?_⟩
        rw [hk2]
        exact List.Perm.erase _ hperm

/-- C7, witness: the resolver theorem applied to two concrete registrations
sharing an identity with distinct creation times, listed in both orders:
the same (most recent) registration is kept either way and one registration
is stale. -/
theorem C7_duplicate_resolver_witness :
    (([⟨"laos_temp_rcp45_t1", .climate "laos" "temp" "rcp45", 1, "/t1"⟩,
        ⟨"laos_temp_rcp45_t2", .climate "laos" "temp" "rcp45", 2, "/t2"⟩]
          : List LayerRegistration).erase
        ⟨"laos_temp_rcp45_t2", .climate "laos" "temp" "rcp45", 2, "/t2"⟩).length = 1
    ∧ (⟨"laos_temp_rcp45_t2", .climate "laos" "temp" "rcp45", 2, "/t2"⟩
        : LayerRegistration)
      ∈ ([⟨"laos_temp_rcp45_t1", .climate "laos" "temp" "rcp45", 1, "/t1"⟩,
          ⟨"laos_temp_rcp45_t2", .climate "laos" "temp" "rcp45", 2, "/t2"⟩]
            : List LayerRegistration)
    ∧ (1 : Nat) < 2 := by
  have h := @C7_duplicate_resolver
    [⟨"laos_temp_rcp45_t1", .climate "laos" "temp" "rcp45", 1, "/t1"⟩,
      ⟨"laos_temp_rcp45_t2", .climate "laos" "temp" "rcp45", 2, "/t2"⟩]
    [⟨"laos_temp_rcp45_t2", .climate "laos" "temp" "rcp45", 2, "/t2"⟩,
      ⟨"laos_temp_rcp45_t1", .climate "laos" "temp" "rcp45", 1, "/t1"⟩]
    (by decide) (by decide) (by decide) (by decide)
    ⟨"laos_temp_rcp45_t2", .climate "laos" "temp" "rcp45", 2, "/t2"⟩
    (([⟨"laos_temp_rcp45_t1", .climate "laos" "temp" "rcp45", 1, "/t1"⟩,
        ⟨"laos_temp_rcp45_t2", .climate "laos" "temp" "rcp45", 2, "/t2"⟩]
          : List LayerRegistration).erase
        ⟨"laos_temp_rcp45_t2", .climate "laos" "temp" "rcp45", 2, "/t2"⟩)
    (by decide)
  exact ⟨h.1, h.2.1, by decide⟩

/-- C3: a cleanup over all countries never fails as a whole — the endpoint
returns the aggregated report unconditionally, every country in scope
contributes one per-country entry, and any stale deletion that fails for a
country is recorded in that country's failure list rather than raising. -/
theorem C3_cleanup_all_resilient (regs : List LayerRegistration)
    (deleteFails : String → Bool) :
    cleanup_all_layers_endpoint regs deleteFails
      = .ok (cleanup_all_duplicate_layers regs deleteFails)
    ∧ (cleanup_all_duplicate_layers regs deleteFails).countries_processed
      = (countryList regs).length
    ∧ (cleanup_all_duplicate_layers regs deleteFails).detailed_results.length
      = (countryList regs).length
    ∧ ∀ c ∈ countryList regs,
        cleanup_duplicate_layers regs deleteFails c
          ∈ (cleanup_all_duplicate_layers regs deleteFails).detailed_results
        ∧ (cleanup_duplicate_layers regs deleteFails c).country = c
        ∧ ∀ r ∈ staleForCountry regs c, deleteFails r.externalName = true →
            r.externalName ∈ (cleanup_duplicate_layers regs deleteFails c).failures := by
  refine ⟨rfl, rfl, by simp [cleanup_all_duplicate_layers], ?_⟩
  intro c hc
  refine ⟨List.mem_map_of_mem _ hc, rfl, ?_⟩
  intro r hr hf
  exact List.mem_map_of_mem _ (List.mem_filter.mpr ⟨hr, hf⟩)

/-- C3, witness: three countries a, b, c where only country b has a stale
duplicate and its deletion fails — the report still carries an entry for b,
b's entry names b, and the failed deletion is listed in b's failures. -/
theorem C3_cleanup_all_resilient_witness :
    cleanup_duplicate_layers
        [⟨"a_x_r", .climate "a" "x" "r", 1, "/a"⟩,
          ⟨"b_y_t1", .climate "b" "y" "r", 1, "/b1"⟩,
          ⟨"b_y_t2", .climate "b" "y" "r", 2, "/b2"⟩,
          ⟨"c_z_r", .climate "c" "z" "r", 1, "/c"⟩]
        (fun n => n == "b_y_t1") "b"
      ∈ (cleanup_all_duplicate_layers
          [⟨"a_x_r", .climate "a" "x" "r", 1, "/a"⟩,
            ⟨"b_y_t1", .climate "b" "y" "r", 1, "/b1"⟩,
            ⟨"b_y_t2", .climate "b" "y" "r", 2, "/b2"⟩,
            ⟨"c_z_r", .climate "c" "z" "r", 1, "/c"⟩]
          (fun n => n == "b_y_t1")).detailed_results
    ∧ (cleanup_duplicate_layers
        [⟨"a_x_r", .climate "a" "x" "r", 1, "/a"⟩,
          ⟨"b_y_t1", .climate "b" "y" "r", 1, "/b1"⟩,
          ⟨"b_y_t2", .climate "b" "y" "r", 2, "/b2"⟩,
          ⟨"c_z_r", .climate "c" "z" "r", 1, "/c"⟩]
        (fun n => n == "b_y_t1") "b").country = "b"
    ∧ "b_y_t1" ∈ (cleanup_duplicate_layers
        [⟨"a_x_r", .climate "a" "x" "r", 1, "/a"⟩,
          ⟨"b_y_t1", .climate "b" "y" "r", 1, "/b1"⟩,
          ⟨"b_y_t2", .climate "b" "y" "r", 2, "/b2"⟩,
          ⟨"c_z_r", .climate "c" "z" "r", 1, "/c"⟩]
        (fun n => n == "b_y_t1") "b").failures := by
  have h := (C3_cleanup_all_resilient
      [⟨"a_x_r", .climate "a" "x" "r", 1, "/a"⟩,
        ⟨"b_y_t1", .climate "b" "y" "r", 1, "/b1"⟩,
        ⟨"b_y_t2", .climate "b" "y" "r", 2, "/b2"⟩,
        ⟨"c_z_r", .climate "c" "z" "r", 1, "/c"⟩]
      (fun n => n == "b_y_t1")).2.2.2 "b" (by decide)
  exact ⟨h.1, h.2.1,
    h.2.2 ⟨"b_y_t1", .climate "b" "y" "r", 1, "/b1"⟩ (by decide) (by decide)⟩

end Escap
